import Mathlib

/-!
Verification development for the TauriCS dynamic module loader and FFI
dispatch bridge (src/src-tauri/src/lib.rs).

The Rust code is embedded shallowly:

- byte strings crossing the FFI boundary are `List Nat` (one entry per
  byte of the C string, terminator excluded);
- raw pointers returned by module code are abstract identifiers (`Nat`);
- a loaded module (`LoadedNative`) carries its behaviour as Lean
  functions: `execute` and `execute_external` map a request to `none`
  (the null sentinel) or to a pointer paired with the bytes stored at
  that pointer, and `free_string` is the identity of the module's
  deallocator function pointer;
- the observable actions of a dispatch (mutex acquire and release,
  module invocation, buffer read, buffer release) are recorded as an
  event trace, in the order the Rust statements perform them;
- fallible operations return an error value, and the panic of an
  `unwrap` is modelled as `none`.
-/

/-- Bytes of a C string crossing the FFI boundary, terminator excluded. -/
abbrev Bytes := List Nat

/-- Rust `str::to_lowercase`, applied character-wise.  The module names
exchanged here are ASCII, where this agrees with the Rust function. -/
def toLowercase (s : String) : String := ⟨s.data.map Char.toLower⟩

/-- Rust `CString::new`: fails exactly when the payload contains an
interior NUL byte; the error carries the position of the first one
(`NulError::nul_position`). -/
def cstringNew (json_data : Bytes) : Except Nat Bytes :=
  if 0 ∈ json_data then .error (json_data.indexOf 0) else .ok json_data

/-- `LoadedNative` (lib.rs:46): the resolved symbols of one loaded
library.  `execute` and `execute_external` return the null sentinel
(`none`) or a pointer together with the bytes it points at;
`execute_streaming` maps a request to the sequence of (pointer, bytes)
messages the module hands to the progress callback; `free_string` is
the identity of the module's deallocator. -/
structure LoadedNative where
  execute : Bytes → Option (Nat × Bytes)
  execute_streaming : Bytes → List (Nat × Bytes)
  execute_external : Bytes → Option (Nat × Bytes)
  free_string : Nat

/-- The map inside `NativeManager.natives` (lib.rs:58), as an
association list: `HashMap` keys are unique by construction here, since
all insertions go through `registryInsert`. -/
abbrev Registry := List (String × LoadedNative)

/-- The distinct error strings `call_backend` and
`call_backend_external` can return (lib.rs:78, 83, 94, 112, 120). -/
inductive CallError where
  | nulError (pos : Nat)
  | nullPointer
  | externalNullPointer
  | notFound (name : String)
deriving DecidableEq, Repr

/-- Rust `Result<String, String>` as returned by the two synchronous
commands. -/
inductive CallResult where
  | ok (value : Bytes)
  | err (e : CallError)
deriving DecidableEq, Repr

/-- Observable actions of a dispatch, in Rust statement order.
`lockAcquire`/`lockRelease` delimit the lifetime of the `MutexGuard` on
the registry; `releaseCall fn ptr` is an invocation of the deallocator
with identity `fn` on pointer `ptr`. -/
inductive TraceEvent where
  | lockAcquire
  | lockRelease
  | executeCall (req : Bytes)
  | executeExternalCall (req : Bytes)
  | readBuffer (ptr : Nat)
  | releaseCall (fn : Nat) (ptr : Nat)
deriving DecidableEq, Repr

/-- True on the events that invoke module entry points. -/
def TraceEvent.isInvoke : TraceEvent → Bool
  | .executeCall _ => true
  | .executeExternalCall _ => true
  | _ => false

/-- True on buffer-release events. -/
def TraceEvent.isRelease : TraceEvent → Bool
  | .releaseCall _ _ => true
  | _ => false

/-- `call_backend` (lib.rs:68): lock the registry, look the module up
under the lowercased name, encode the payload, run `execute`, fail on
the null sentinel, copy the buffer out, release it, return.  The
`MutexGuard` lives to the end of the function on every path, so
`lockRelease` is always the final event.  `to_string_lossy` is the
identity on the UTF-8 text the module contract mandates, so the copied
result is the buffer's bytes. -/
def call_backend (natives : Registry) (native_name : String) (json_data : Bytes) :
    CallResult × List TraceEvent :=
  match natives.lookup (toLowercase native_name) with
  | some native =>
    match cstringNew json_data with
    | .error pos => (.err (.nulError pos), [.lockAcquire, .lockRelease])
    | .ok req =>
      match native.execute req with
      | none => (.err .nullPointer, [.lockAcquire, .executeCall req, .lockRelease])
      | some (result_ptr, buf) =>
        (.ok buf,
         [.lockAcquire, .executeCall req, .readBuffer result_ptr,
          .releaseCall native.free_string result_ptr, .lockRelease])
  | none => (.err (.notFound native_name), [.lockAcquire, .lockRelease])

/-- `call_backend_external` (lib.rs:102): same shape as `call_backend`
but invokes `execute_external` and uses its own null-pointer error
string. -/
def call_backend_external (natives : Registry) (native_name : String) (json_data : Bytes) :
    CallResult × List TraceEvent :=
  match natives.lookup (toLowercase native_name) with
  | some native =>
    match cstringNew json_data with
    | .error pos => (.err (.nulError pos), [.lockAcquire, .lockRelease])
    | .ok req =>
      match native.execute_external req with
      | none => (.err .externalNullPointer, [.lockAcquire, .executeExternalCall req, .lockRelease])
      | some (result_ptr, buf) =>
        (.ok buf,
         [.lockAcquire, .executeExternalCall req, .readBuffer result_ptr,
          .releaseCall native.free_string result_ptr, .lockRelease])
  | none => (.err (.notFound native_name), [.lockAcquire, .lockRelease])

/-- The sub-trace of events that occur while the registry mutex is
held, scanning the trace with the current lock depth. -/
def eventsUnderLock (depth : Nat) : List TraceEvent → List TraceEvent
  | [] => []
  | e :: rest =>
    match e with
    | .lockAcquire => eventsUnderLock (depth + 1) rest
    | .lockRelease => eventsUnderLock (depth - 1) rest
    | _ => if 0 < depth then e :: eventsUnderLock depth rest else eventsUnderLock depth rest

/-- One directory entry seen by the discovery scan in the `setup` hook
(lib.rs:194): whether its extension is `dll`, whether `Library::new`
succeeds, which of the required exports resolve, the name its
`get_native_name` returns, and the behaviour of the module if loaded. -/
structure DirEntryFile where
  is_dll : Bool
  opens : Bool
  has_get_native_name : Bool
  has_free_string : Bool
  get_native_name : String
  has_execute : Bool
  has_execute_streaming : Bool
  has_execute_external : Bool
  native : LoadedNative

/-- The symbol-resolution chain of the per-file closure (lib.rs:199
to 217), in source order; any failed step makes the closure return an
error, which the caller turns into a logged skip.  `has_free_string`
appears twice because the source resolves the symbol once for the name
buffer and once for the handle. -/
def loadable (f : DirEntryFile) : Bool :=
  f.opens && f.has_get_native_name && f.has_free_string &&
    f.has_execute && f.has_execute_streaming && f.has_execute_external && f.has_free_string

/-- `HashMap::insert` on the association list: overwrite the entry with
this key if present, otherwise append a new one. -/
def registryInsert (natives : Registry) (name : String) (native : LoadedNative) : Registry :=
  if natives.any (fun p => p.1 == name) then
    natives.map (fun p => if p.1 == name then (name, native) else p)
  else
    natives ++ [(name, native)]

/-- One iteration of the discovery loop (lib.rs:195): non-dll entries
are ignored, a failed load is skipped, a successful load is inserted
under the name `get_native_name` returned, exactly as the source wrote
it (`natives.insert(name, ...)` at lib.rs:222, with no lowercasing). -/
def scanStep (natives : Registry) (entry : DirEntryFile) : Registry :=
  if entry.is_dll then
    match (if loadable entry then some (entry.get_native_name, entry.native) else none) with
    | some (name, native) => registryInsert natives name native
    | none => natives
  else natives

/-- The discovery loop folded over the directory listing, starting from
the registry already held under the lock. -/
def setup_scan_from (natives : Registry) (files : List DirEntryFile) : Registry :=
  files.foldl scanStep natives

/-- The discovery scan of the `setup` hook, starting from the empty
registry `run` installed (lib.rs:185). -/
def setup_scan (files : List DirEntryFile) : Registry :=
  setup_scan_from [] files

/-- A directory entry that ends up registered: a dll file that opens
and resolves every required export. -/
def validFile (f : DirEntryFile) : Bool := f.is_dll && loadable f

/-- The two process-wide statics `APP_HANDLE` and `FREE_STRING_FN`
(lib.rs:128, 129), as abstract identifiers: the event-sink half and the
release-function half of the streaming callback route. -/
structure GlobalRoute where
  app_handle : Option Nat
  free_string_fn : Option Nat
deriving DecidableEq, Repr

/-- The whole mutable state of the bridge: the managed registry and the
two streaming statics. -/
structure BridgeState where
  natives : Registry
  route : GlobalRoute

/-- State installed by `run` before the setup hook: empty registry,
both statics `None` (lib.rs:128, 129, 185). -/
def initialBridgeState : BridgeState :=
  { natives := [], route := { app_handle := none, free_string_fn := none } }

/-- The `setup` hook (lib.rs:187): populates the registry by scanning
the natives directory; it never touches the two streaming statics. -/
def run_setup (st : BridgeState) (files : List DirEntryFile) : BridgeState :=
  { st with natives := setup_scan_from st.natives files }

/-- `call_backend` as a transition on the whole bridge state: the
command reads the registry and never mentions the streaming statics. -/
def call_backend_st (st : BridgeState) (native_name : String) (json_data : Bytes) :
    BridgeState × CallResult × List TraceEvent :=
  (st, call_backend st.natives native_name json_data)

/-- `call_backend_external` as a transition on the whole bridge state;
it too never mentions the streaming statics. -/
def call_backend_external_st (st : BridgeState) (native_name : String) (json_data : Bytes) :
    BridgeState × CallResult × List TraceEvent :=
  (st, call_backend_external st.natives native_name json_data)

/-- `start_streaming_task` (lib.rs:153): a lookup miss is a silent
no-op (`some (st, false)`); on a hit, `CString::new(json_data).unwrap()`
panics on an interior NUL (modelled as `none`), and otherwise both
statics are overwritten - `APP_HANDLE` with the command's app handle,
`FREE_STRING_FN` with the found module's deallocator - before the
worker thread is spawned (`some (st2, true)`). -/
def start_streaming_task (st : BridgeState) (native_name : String) (json_data : Bytes)
    (app_handle : Nat) : Option (BridgeState × Bool) :=
  match st.natives.lookup (toLowercase native_name) with
  | some native =>
    match cstringNew json_data with
    | .error _ => none
    | .ok _ =>
      some ({ st with route := { app_handle := some app_handle,
                                 free_string_fn := some native.free_string } }, true)
  | none => some (st, false)

/-- The bridge state after a streaming start, ignoring the spawn flag;
a panic leaves the state as it was when the statics were last written. -/
def afterStream (st : BridgeState) (native_name : String) (json_data : Bytes)
    (app_handle : Nat) : BridgeState :=
  match start_streaming_task st native_name json_data app_handle with
  | some (st2, _) => st2
  | none => st

/-- What one invocation of `progress_callback` does (lib.rs:136): the
events it emits and the release calls it makes, as (deallocator
identity, pointer) pairs. -/
structure CallbackEffects where
  emitted : List (String × Bytes)
  released : List (Nat × Nat)
deriving DecidableEq, Repr

/-- `progress_callback` (lib.rs:136): if `APP_HANDLE` is set, read the
message bytes and emit them on the `csharp-stream` event; independently,
if `FREE_STRING_FN` is set, invoke it on the message pointer. -/
def progress_callback (route : GlobalRoute) (message_ptr : Nat) (message : Bytes) :
    CallbackEffects :=
  { emitted :=
      match route.app_handle with
      | some _ => [("csharp-stream", message)]
      | none => []
    released :=
      match route.free_string_fn with
      | some free_fn => [(free_fn, message_ptr)]
      | none => [] }

/-- A concrete module behaviour used by the closed theorems: `execute`
answers with the request plus one byte at pointer 1, `execute_external`
echoes the request at pointer 2, the deallocator has identity 7. -/
def demoNative : LoadedNative :=
  { execute := fun req => some (1, req ++ [42])
    execute_streaming := fun _ => []
    execute_external := fun req => some (2, req)
    free_string := 7 }

/-- A module whose `execute` always returns the null sentinel. -/
def nullNative : LoadedNative :=
  { demoNative with execute := fun _ => none }

/-- A valid dll file self-declaring the lowercase name `demo`. -/
def demoFile : DirEntryFile :=
  { is_dll := true, opens := true, has_get_native_name := true, has_free_string := true
    get_native_name := "demo", has_execute := true, has_execute_streaming := true
    has_execute_external := true, native := demoNative }

/-- A second valid dll file declaring the same name `demo` with a
different behaviour. -/
def demoDupFile : DirEntryFile :=
  { demoFile with native := nullNative }

/-- A valid dll file whose self-declared name has an uppercase letter. -/
def sampleFile : DirEntryFile :=
  { demoFile with get_native_name := "Sample" }

/-- A dll file on which `Library::new` fails. -/
def badFile : DirEntryFile :=
  { demoFile with opens := false }

/-- A registry holding `demoNative` under the key `demo`. -/
def demoRegistry : Registry := [("demo", demoNative)]

/-- A bridge state whose registry is `demoRegistry` and whose streaming
statics are unset. -/
def demoState : BridgeState :=
  { natives := demoRegistry, route := { app_handle := none, free_string_fn := none } }

/-- A module whose `execute` slot holds its own `execute_external`
behaviour: running it through the synchronous path performs exactly the
native invocation the external path performs. -/
def swapExec (native : LoadedNative) : LoadedNative :=
  { native with execute := native.execute_external }

/-- The registry with every handle's `execute` slot replaced by its
`execute_external` behaviour. -/
def swapRegistry (natives : Registry) : Registry :=
  natives.map (fun kv => (kv.1, swapExec kv.2))

/-- Renames the external-invocation event to the synchronous one and
leaves every other event alone: the claimed sole difference between the
two dispatch paths. -/
def swapEvent : TraceEvent → TraceEvent
  | .executeExternalCall req => .executeCall req
  | e => e

/-- The error taxonomy of the specification: `ModuleNotFound`,
`EncodingError`, `NativeExecutionFailed` (spec section 7).  This
definition follows the spec's words, for comparison against the code:
the code reports errors as strings, and both null-pointer strings
signal the class `NativeExecutionFailed`. -/
inductive ErrClass where
  | moduleNotFound
  | encodingError
  | nativeExecutionFailed
deriving DecidableEq, Repr

/-- Maps each concrete error the code returns to the specification's
error taxonomy. -/
def errClass : CallError → ErrClass
  | .notFound _ => .moduleNotFound
  | .nulError _ => .encodingError
  | .nullPointer => .nativeExecutionFailed
  | .externalNullPointer => .nativeExecutionFailed

/-- A call result abstracted to the specification's error taxonomy. -/
inductive SpecResult where
  | ok (value : Bytes)
  | err (e : ErrClass)
deriving DecidableEq, Repr

/-- Abstracts a concrete call result to the taxonomy of the spec. -/
def classifyResult : CallResult → SpecResult
  | .ok v => .ok v
  | .err e => .err (errClass e)

/-- Claim C1.  The claim says lookup in any letter case finds a module
registered during discovery, because registry keys are lowercased and
lookup lowercases its argument.  The discovery code inserts the key
exactly as `get_native_name` returned it, without lowercasing, so a
module self-declaring the name `Sample` is registered under `Sample`,
and every call - even one spelling the name exactly as declared - looks
up the lowercased `sample` and misses. -/
theorem c1_registry_key_not_lowercased :
    (setup_scan [sampleFile]).map Prod.fst = ["Sample"] ∧
    (call_backend (setup_scan [sampleFile]) "Sample" [1]).1 = .err (.notFound "Sample") ∧
    (call_backend (setup_scan [sampleFile]) "sample" [1]).1 = .err (.notFound "sample") ∧
    (call_backend (setup_scan [sampleFile]) "SAMPLE" [1]).1 = .err (.notFound "SAMPLE") :=
  ⟨by decide, by decide, by decide, by decide⟩

/-- Claim C2.  The claim says the registry lock is released after the
handle is cloned and is never held while `execute` runs.  In the code
the mutex guard lives to the end of `call_backend`, so on a successful
call every module-facing event - the `execute` invocation, the buffer
read and the release - happens while the registry lock is held. -/
theorem c2_execute_runs_under_registry_lock :
    eventsUnderLock 0 (call_backend demoRegistry "demo" [1]).2 =
      [.executeCall [1], .readBuffer 1, .releaseCall demoNative.free_string 1] := by
  decide

/-- Claim C3.  For a registered module whose `execute` returns a
non-null buffer, `call_backend` returns `Ok` with exactly the buffer's
byte content, and the deallocator of that module is invoked exactly
once, with exactly the pointer `execute` returned, after the buffer has
been read out: the full trace is lock, execute, read, release, unlock. -/
theorem c3_call_returns_buffer_and_releases_once
    (natives : Registry) (native_name : String) (json_data : Bytes)
    (native : LoadedNative) (result_ptr : Nat) (buf : Bytes)
    (hfound : natives.lookup (toLowercase native_name) = some native)
    (hnonul : 0 ∉ json_data)
    (hexec : native.execute json_data = some (result_ptr, buf)) :
    call_backend natives native_name json_data =
      (.ok buf,
       [.lockAcquire, .executeCall json_data, .readBuffer result_ptr,
        .releaseCall native.free_string result_ptr, .lockRelease]) := by
  simp [call_backend, hfound, cstringNew, hnonul, hexec]

/-- Witness for C3 at the demo module and payload `[1]`. -/
theorem c3_witness :
    demoRegistry.lookup (toLowercase "Demo") = some demoNative ∧
    0 ∉ ([1] : Bytes) ∧
    demoNative.execute [1] = some (1, [1, 42]) ∧
    call_backend demoRegistry "Demo" [1] =
      (.ok [1, 42],
       [.lockAcquire, .executeCall [1], .readBuffer 1,
        .releaseCall demoNative.free_string 1, .lockRelease]) :=
  ⟨rfl, by decide, by decide,
   c3_call_returns_buffer_and_releases_once demoRegistry "Demo" [1] demoNative 1 [1, 42]
     rfl (by decide) (by decide)⟩

/-- Claim C4.  For a registered module whose `execute` returns the null
sentinel, `call_backend` returns the null-pointer error and performs no
release call during that dispatch. -/
theorem c4_null_result_no_release
    (natives : Registry) (native_name : String) (json_data : Bytes)
    (native : LoadedNative)
    (hfound : natives.lookup (toLowercase native_name) = some native)
    (hnonul : 0 ∉ json_data)
    (hexec : native.execute json_data = none) :
    (call_backend natives native_name json_data).1 = .err .nullPointer ∧
    ((call_backend natives native_name json_data).2.filter (fun e => e.isRelease)) = [] := by
  simp [call_backend, hfound, cstringNew, hnonul, hexec, TraceEvent.isRelease]

/-- Witness for C4 at the null-returning module and payload `[1]`. -/
theorem c4_witness :
    ([("demo", nullNative)] : Registry).lookup (toLowercase "demo") = some nullNative ∧
    0 ∉ ([1] : Bytes) ∧
    nullNative.execute [1] = none ∧
    ((call_backend [("demo", nullNative)] "demo" [1]).1 = .err .nullPointer ∧
     ((call_backend [("demo", nullNative)] "demo" [1]).2.filter (fun e => e.isRelease)) = []) :=
  ⟨rfl, by decide, by decide,
   c4_null_result_no_release [("demo", nullNative)] "demo" [1] nullNative
     rfl (by decide) (by decide)⟩

/-- Claim C5.  For a registered module and a payload with an interior
NUL byte, `call_backend` fails with the encoding error carrying the
position of the first NUL, and no module entry point is ever invoked:
the `CString` encoding step guards the invocation step. -/
theorem c5_interior_nul_encoding_error
    (natives : Registry) (native_name : String) (json_data : Bytes)
    (native : LoadedNative)
    (hfound : natives.lookup (toLowercase native_name) = some native)
    (hnul : 0 ∈ json_data) :
    (call_backend natives native_name json_data).1 =
      .err (.nulError (json_data.indexOf 0)) ∧
    ((call_backend natives native_name json_data).2.filter (fun e => e.isInvoke)) = [] := by
  simp [call_backend, hfound, cstringNew, hnul, TraceEvent.isInvoke]

/-- Witness for C5 at the demo module and the payload `[65, 0, 66]`. -/
theorem c5_witness :
    demoRegistry.lookup (toLowercase "demo") = some demoNative ∧
    0 ∈ ([65, 0, 66] : Bytes) ∧
    ((call_backend demoRegistry "demo" [65, 0, 66]).1 =
       .err (.nulError (([65, 0, 66] : Bytes).indexOf 0)) ∧
     ((call_backend demoRegistry "demo" [65, 0, 66]).2.filter (fun e => e.isInvoke)) = []) :=
  ⟨rfl, by decide,
   c5_interior_nul_encoding_error demoRegistry "demo" [65, 0, 66] demoNative rfl (by decide)⟩

/-- Association-list lookup commutes with mapping over the values. -/
theorem lookup_map_values (g : LoadedNative → LoadedNative) (l : Registry) (k : String) :
    (l.map (fun kv => (kv.1, g kv.2))).lookup k = (l.lookup k).map g := by
  induction l with
  | nil => rfl
  | cons hd tl ih =>
    obtain ⟨k1, v1⟩ := hd
    cases h : (k == k1) with
    | true => simp [List.lookup, h]
    | false => simp [List.lookup, h, ih]

/-- Claim C6.  `call_backend_external` behaves exactly as
`call_backend` does on the registry whose handles run their
`execute_external` behaviour in the `execute` slot: the results agree
up to the spec's error taxonomy (the two null-sentinel error strings
both mean `NativeExecutionFailed`), the successful payloads agree
byte-for-byte, and the traces agree once the external invocation event
is renamed - so lookup, encoding, null-sentinel failure, result
copying and the release protocol are identical, and only the entry
point invoked differs. -/
theorem c6_external_call_mirrors_call
    (natives : Registry) (native_name : String) (json_data : Bytes) :
    classifyResult (call_backend_external natives native_name json_data).1 =
      classifyResult (call_backend (swapRegistry natives) native_name json_data).1 ∧
    (call_backend_external natives native_name json_data).2.map swapEvent =
      (call_backend (swapRegistry natives) native_name json_data).2 := by
  unfold call_backend call_backend_external swapRegistry
  rw [lookup_map_values]
  cases hl : natives.lookup (toLowercase native_name) with
  | none => simp [classifyResult, errClass, swapEvent]
  | some native =>
    cases hc : cstringNew json_data with
    | error pos => simp [classifyResult, errClass, swapEvent]
    | ok req =>
      cases he : native.execute_external req with
      | none => simp [swapExec, he, classifyResult, errClass, swapEvent]
      | some pb =>
        obtain ⟨result_ptr, buf⟩ := pb
        simp [swapExec, he, classifyResult, swapEvent]

/-- Claim C9.  For every buffer handed to `progress_callback`: when the
event sink is initialized the message bytes are emitted on the
`csharp-stream` event, otherwise nothing is emitted; independently,
when a release function is registered it is invoked exactly once on the
buffer's pointer, otherwise no release happens. -/
theorem c9_progress_callback_emit_and_release
    (route : GlobalRoute) (message_ptr : Nat) (message : Bytes) :
    (∀ h, route.app_handle = some h →
      (progress_callback route message_ptr message).emitted = [("csharp-stream", message)]) ∧
    (route.app_handle = none →
      (progress_callback route message_ptr message).emitted = []) ∧
    (∀ free_fn, route.free_string_fn = some free_fn →
      (progress_callback route message_ptr message).released = [(free_fn, message_ptr)]) ∧
    (route.free_string_fn = none →
      (progress_callback route message_ptr message).released = []) := by
  refine ⟨fun h hh => ?_, fun hh => ?_, fun free_fn hh => ?_, fun hh => ?_⟩ <;>
    simp [progress_callback, hh]

/-- Witness for C9 at a route with sink 3 and deallocator 7, buffer
pointer 9 with bytes `[97]`. -/
theorem c9_witness :
    (GlobalRoute.mk (some 3) (some 7)).app_handle = some 3 ∧
    (GlobalRoute.mk (some 3) (some 7)).free_string_fn = some 7 ∧
    (progress_callback (GlobalRoute.mk (some 3) (some 7)) 9 [97]).emitted =
      [("csharp-stream", [97])] ∧
    (progress_callback (GlobalRoute.mk (some 3) (some 7)) 9 [97]).released = [(7, 9)] :=
  ⟨rfl, rfl,
   (c9_progress_callback_emit_and_release (GlobalRoute.mk (some 3) (some 7)) 9 [97]).1 3 rfl,
   (c9_progress_callback_emit_and_release
     (GlobalRoute.mk (some 3) (some 7)) 9 [97]).2.2.1 7 rfl⟩

/-- Claim C10.  For a registered module, `start_streaming_task` panics
(the `unwrap` on `CString::new`, modelled as `none`) whenever the
payload has an interior NUL byte - it neither returns an encoding
error nor degrades to a silent no-op - and for payloads without an
interior NUL the encoding never fails and the worker is spawned. -/
theorem c10_streaming_interior_nul_panics
    (st : BridgeState) (native_name : String) (json_data : Bytes)
    (app_handle : Nat) (native : LoadedNative)
    (hfound : st.natives.lookup (toLowercase native_name) = some native) :
    (0 ∈ json_data → start_streaming_task st native_name json_data app_handle = none) ∧
    (0 ∉ json_data →
      start_streaming_task st native_name json_data app_handle =
        some ({ st with route := { app_handle := some app_handle,
                                   free_string_fn := some native.free_string } }, true)) := by
  constructor
  · intro hnul
    simp [start_streaming_task, hfound, cstringNew, hnul]
  · intro hnonul
    simp [start_streaming_task, hfound, cstringNew, hnonul]

/-- Witness for C10: the demo module with payload `[0]` panics, and
with payload `[1]` the task starts. -/
theorem c10_witness :
    demoState.natives.lookup (toLowercase "demo") = some demoNative ∧
    0 ∈ ([0] : Bytes) ∧
    start_streaming_task demoState "demo" [0] 5 = none ∧
    start_streaming_task demoState "demo" [1] 5 =
      some ({ demoState with route := { app_handle := some 5,
                                        free_string_fn := some demoNative.free_string } }, true) :=
  ⟨rfl, by decide,
   (c10_streaming_interior_nul_panics demoState "demo" [0] 5 demoNative rfl).1 (by decide),
   (c10_streaming_interior_nul_panics demoState "demo" [1] 5 demoNative rfl).2 (by decide)⟩

/-- Unfolding lemma: the discovery fold processes the head file first. -/
theorem setup_scan_from_cons (natives : Registry) (f : DirEntryFile)
    (fs : List DirEntryFile) :
    setup_scan_from natives (f :: fs) = setup_scan_from (scanStep natives f) fs := rfl

/-- A file that is not a valid module leaves the registry unchanged:
the discovery loop skips it and goes on. -/
theorem scanStep_invalid (natives : Registry) (f : DirEntryFile)
    (h : validFile f = false) : scanStep natives f = natives := by
  unfold validFile at h
  cases hd : f.is_dll with
  | false => simp [scanStep, hd]
  | true =>
    rw [hd] at h
    simp only [Bool.true_and] at h
    simp [scanStep, hd, h]

/-- Invalid files never contribute and never abort: the scan of a
directory equals the scan of its valid files alone. -/
theorem setup_scan_from_filter (files : List DirEntryFile) (natives : Registry) :
    setup_scan_from natives files = setup_scan_from natives (files.filter validFile) := by
  induction files generalizing natives with
  | nil => rfl
  | cons f fs ih =>
    rw [List.filter_cons]
    cases hv : validFile f with
    | true =>
      rw [if_pos rfl, setup_scan_from_cons, setup_scan_from_cons]
      exact ih _
    | false =>
      rw [if_neg (by simp), setup_scan_from_cons, scanStep_invalid natives f hv]
      exact ih _

/-- Inserting under a key absent from the registry appends the new
entry at the end. -/
theorem registryInsert_fresh (natives : Registry) (name : String) (native : LoadedNative)
    (h : name ∉ natives.map Prod.fst) :
    registryInsert natives name native = natives ++ [(name, native)] := by
  have hany : natives.any (fun p => p.1 == name) = false := by
    rw [List.any_eq_false]
    intro p hp
    simp only [beq_iff_eq]
    intro he
    exact h (he ▸ List.mem_map_of_mem Prod.fst hp)
  simp [registryInsert, hany]

/-- Scanning valid files whose names are mutually distinct and absent
from the current registry appends one entry per file, keyed by its
self-declared name, in scan order. -/
theorem setup_scan_from_valid (files : List DirEntryFile) : ∀ natives : Registry,
    (∀ f ∈ files, validFile f = true) →
    (∀ f ∈ files, f.get_native_name ∉ natives.map Prod.fst) →
    (files.map (fun f => f.get_native_name)).Nodup →
    setup_scan_from natives files =
      natives ++ files.map (fun f => (f.get_native_name, f.native)) := by
  induction files with
  | nil => intro natives _ _ _; simp [setup_scan_from]
  | cons f fs ih =>
    intro natives hvalid hfresh hnames
    have hv : validFile f = true := hvalid f (List.mem_cons_self f fs)
    obtain ⟨hdll, hload⟩ : f.is_dll = true ∧ loadable f = true := by
      simpa [validFile] using hv
    have hstep : scanStep natives f = natives ++ [(f.get_native_name, f.native)] := by
      simp only [scanStep, hdll, hload, if_true]
      exact registryInsert_fresh natives f.get_native_name f.native
        (hfresh f (List.mem_cons_self f fs))
    have hnames2 : (∀ g ∈ fs, ¬ g.get_native_name = f.get_native_name) ∧
        (fs.map (fun f => f.get_native_name)).Nodup := by simpa using hnames
    rw [setup_scan_from_cons, hstep,
      ih (natives ++ [(f.get_native_name, f.native)])
        (fun g hg => hvalid g (List.mem_cons_of_mem f hg))
        (fun g hg => by
          simp only [List.map_append, List.mem_append, List.map_cons, List.map_nil,
            List.mem_singleton]
          rintro (hin | heq)
          · exact hfresh g (List.mem_cons_of_mem f hg) hin
          · exact hnames2.1 g hg heq)
        hnames2.2]
    simp

/-- Counterexample to claim C7 as stated: two valid dll files that both
self-declare the name `demo` yield one registry entry, not two. -/
theorem c7_counterexample_duplicate_names :
    validFile demoFile = true ∧ validFile demoDupFile = true ∧
    (setup_scan [demoFile, demoDupFile]).length = 1 ∧
    (setup_scan [demoFile, demoDupFile]).length ≠ 2 :=
  ⟨by decide, by decide, by decide, by decide⟩

/-- Claim C7, amended with the distinctness the counterexample forces.
For a directory whose valid module files carry pairwise distinct
self-declared names, discovery registers exactly one entry per valid
file, keyed by that name, and the invalid files are skipped without
aborting the scan of the rest: the scan of the whole directory equals
the scan of its valid files alone. -/
theorem c7_distinct_names_register_all (files : List DirEntryFile)
    (hnodup : ((files.filter validFile).map (fun f => f.get_native_name)).Nodup) :
    setup_scan files = setup_scan (files.filter validFile) ∧
    setup_scan files = (files.filter validFile).map (fun f => (f.get_native_name, f.native)) ∧
    (setup_scan files).length = (files.filter validFile).length := by
  have h1 : setup_scan files = setup_scan (files.filter validFile) :=
    setup_scan_from_filter files []
  have h2 : setup_scan (files.filter validFile) =
      (files.filter validFile).map (fun f => (f.get_native_name, f.native)) := by
    have := setup_scan_from_valid (files.filter validFile) []
      (fun f hf => List.of_mem_filter hf) (fun f _ => by simp) hnodup
    simpa [setup_scan] using this
  exact ⟨h1, h1.trans h2, by rw [h1.trans h2, List.length_map]⟩

/-- Witness for C7 at a directory holding one valid file and one file
that fails to open. -/
theorem c7_witness :
    ((([demoFile, badFile] : List DirEntryFile).filter validFile).map
      (fun f => f.get_native_name)).Nodup ∧
    (setup_scan [demoFile, badFile]
        = setup_scan (([demoFile, badFile] : List DirEntryFile).filter validFile) ∧
      setup_scan [demoFile, badFile]
        = (([demoFile, badFile] : List DirEntryFile).filter validFile).map
            (fun f => (f.get_native_name, f.native)) ∧
      (setup_scan [demoFile, badFile]).length
        = (([demoFile, badFile] : List DirEntryFile).filter validFile).length) :=
  ⟨by decide, c7_distinct_names_register_all [demoFile, badFile] (by decide)⟩

/-- Counterexample to claim C8 as stated: after a complete startup
(the `run` builder plus the `setup` discovery over a directory with a
valid module) the event-sink half is still unset, and each streaming
start overwrites it - so it is not set once at startup, and an
operation other than startup modifies it. -/
theorem c8_counterexample_sink_not_set_at_startup :
    (run_setup initialBridgeState [demoFile]).route =
      { app_handle := none, free_string_fn := none } ∧
    (afterStream (run_setup initialBridgeState [demoFile]) "demo" [1] 1).route.app_handle
      = some 1 ∧
    (afterStream (afterStream (run_setup initialBridgeState [demoFile]) "demo" [1] 1)
        "demo" [1] 2).route.app_handle = some 2 :=
  ⟨by decide, by decide, by decide⟩

/-- Claim C8, amended to what the code does: startup and the two
synchronous commands never touch either half of the streaming route;
each streaming start on a registered module overwrites both halves
together - the event-sink half with the calling command's app handle
and the release-function half with that module's deallocator - and a
streaming start on an unknown name changes nothing.  No operation ever
clears either half. -/
theorem c8_route_update_characterization
    (st : BridgeState) (files : List DirEntryFile) (native_name : String)
    (json_data : Bytes) (app_handle : Nat) (native : LoadedNative) :
    (run_setup st files).route = st.route ∧
    (call_backend_st st native_name json_data).1.route = st.route ∧
    (call_backend_external_st st native_name json_data).1.route = st.route ∧
    (st.natives.lookup (toLowercase native_name) = some native → 0 ∉ json_data →
      start_streaming_task st native_name json_data app_handle =
        some ({ st with route := { app_handle := some app_handle,
                                   free_string_fn := some native.free_string } }, true)) ∧
    (st.natives.lookup (toLowercase native_name) = none →
      start_streaming_task st native_name json_data app_handle = some (st, false)) := by
  refine ⟨rfl, rfl, rfl, fun hfound hnonul => ?_, fun hmiss => ?_⟩
  · simp [start_streaming_task, hfound, cstringNew, hnonul]
  · simp [start_streaming_task, hmiss]

/-- Witness for C8 at the demo state: startup over an empty directory
leaves the route alone, and a streaming start on the registered demo
module sets both halves. -/
theorem c8_witness :
    (run_setup demoState []).route = demoState.route ∧
    start_streaming_task demoState "demo" [2] 9 =
      some ({ demoState with route := { app_handle := some 9,
                                        free_string_fn := some demoNative.free_string } }, true) :=
  ⟨(c8_route_update_characterization demoState [] "demo" [2] 9 demoNative).1,
   (c8_route_update_characterization demoState [] "demo" [2] 9 demoNative).2.2.2.1
     rfl (by decide)⟩
